import Mathlib

/-!
# Verification of the uefisettings core against its specification

Shallow embedding of the parts of linuxboot/uefisettings that the claims
touch:

* `src/lib/ilorest/blobstore.rs` — the Blobstore2 transport
  (`Transport::exchange_packet`, `Transport::make_request` response
  handling, `IloFixedResponse`, `PacketExchangeResponse`);
* `src/lib/ilorest/rest.rs` — the REST retry loop (`RestClient::exec`);
* `src/lib/hii/package.rs` — `read_db`, `get_package_lists`, `get_packages`;
* `src/lib/hii/strings.rs` — `handle_string_package`;
* `src/lib/hii/forms.rs` — `handle_form_package`, `handle_oneof`,
  `change_value`, `VariableStore::write_at_offset`;
* `src/lib/hii/efivarfs.rs` / `src/lib/chattr.rs` — the mount-flag and
  immutable-attribute guards.

Bytes are modelled as `Nat` (each entry of a buffer is one byte; the
concrete buffers used in theorems keep every entry below 256).  Machine
integers are `Nat` with explicit bounds where overflow matters.  Fallible
Rust code returns `Except`/`Option`.  The foreign `ilorest_chif.so` calls
are oracles passed in as function arguments.
-/

deriving instance DecidableEq for Except

namespace Uefi

/-! ## Byte-buffer primitives

`binrw`'s cursor reads: `read_le::<u16>` / `read_le::<u32>` at an offset
fail when the buffer ends before the value does. -/

/-- Little-endian `u16` at byte offset `off`; `none` when the buffer is
too short (a cursor `read_le` error). -/
def readLe16 (buf : List Nat) (off : Nat) : Option Nat :=
  if off + 2 ≤ buf.length then
    some (buf.getD off 0 + 256 * buf.getD (off + 1) 0)
  else none

/-- Little-endian `u32` at byte offset `off`; `none` when the buffer is
too short. -/
def readLe32 (buf : List Nat) (off : Nat) : Option Nat :=
  if off + 4 ≤ buf.length then
    some (buf.getD off 0 + 256 * buf.getD (off + 1) 0
      + 65536 * buf.getD (off + 2) 0 + 16777216 * buf.getD (off + 3) 0)
  else none

/-- `count`-byte slice starting at `off`; `none` when the buffer is too
short (a cursor `read_exact` / `#[br(count = ...)]` error). -/
def readSlice (buf : List Nat) (off count : Nat) : Option (List Nat) :=
  if off + count ≤ buf.length then some ((buf.drop off).take count)
  else none

/-- The two little-endian bytes of a `u16` value. -/
def encodeLe16 (v : Nat) : List Nat := [v % 256, v / 256 % 256]

/-- Concatenated little-endian encodings of a list of `u16` values
(UTF-16LE code units). -/
def encodeUtf16Bytes (us : List Nat) : List Nat := us.flatMap encodeLe16

end Uefi

namespace Blobstore

open Uefi

/-- `BlobStoreReturnCode::Success` (blobstore.rs). -/
def successCode : Nat := 0

/-- `BlobStoreReturnCode::NotModified` (blobstore.rs). -/
def notModifiedCode : Nat := 20

/-- `PacketExchangeResponse` (blobstore.rs): `sequence_number` is the
little-endian `u16` at offset 2, `error_code` the little-endian `u32` at
offset 8. -/
structure PacketExchangeResponse where
  sequence_number : Nat
  error_code : Nat
  deriving DecidableEq, Repr

/-- `binrw` parse of `PacketExchangeResponse` from a receive buffer. -/
def parsePacketExchangeResponse (buf : List Nat) : Option PacketExchangeResponse := do
  let seq ← readLe16 buf 2
  let err ← readLe32 buf 8
  pure ⟨seq, err⟩

/-- Errors surfaced by `Transport::exchange_packet` (all are `anyhow`
errors in the source; we separate them by their message). -/
inductive ExchangeError where
  /-- reading the `u16` at offset 2 of `send_buf` failed -/
  | sendParse : ExchangeError
  /-- parsing `PacketExchangeResponse` from the receive buffer failed -/
  | recvParse : ExchangeError
  /-- "Sequence number mismatch during packet exchange. Expected {}, got {}" -/
  | seqMismatch (expected got : Nat) : ExchangeError
  /-- "ilorest_chif returned error code {}" -/
  | transportError (code : Nat) : ExchangeError
  /-- "Unexpected Status code: {}" from the library call itself -/
  | libStatus (code : Nat) : ExchangeError
  deriving DecidableEq, Repr

/-- `Transport::exchange_packet` (blobstore.rs lines 328-360).  The
foreign `ilo.exchange_packet` call is the oracle `libReply`: `Err status`
models a non-zero CHIF status code, `Ok recv` the filled receive
buffer. -/
def exchange_packet (sendBuf : List Nat) (libReply : Except Nat (List Nat)) :
    Except ExchangeError (List Nat) :=
  match readLe16 sendBuf 2 with
  | none => .error .sendParse
  | some sequenceNumber =>
    match libReply with
    | .error statusCode => .error (.libStatus statusCode)
    | .ok recvBuf =>
      match parsePacketExchangeResponse recvBuf with
      | none => .error .recvParse
      | some resp =>
        if resp.sequence_number ≠ sequenceNumber then
          .error (.seqMismatch sequenceNumber resp.sequence_number)
        else if ¬(resp.error_code = successCode ∨ resp.error_code = notModifiedCode) then
          .error (.transportError resp.error_code)
        else
          .ok recvBuf

/-- `IloFixedResponse` (blobstore.rs lines 376-385): `sequence_number`
`u16` at offset 2, `error_code` `u32` at offset 8, then `receive_mode`
and `data_len` (`u32` each, so at offsets 12 and 16). -/
structure IloFixedResponse where
  sequence_number : Nat
  error_code : Nat
  receive_mode : Nat
  data_len : Nat
  deriving DecidableEq, Repr

/-- `binrw` parse of `IloFixedResponse`. -/
def parseIloFixedResponse (buf : List Nat) : Option IloFixedResponse := do
  let seq ← readLe16 buf 2
  let err ← readLe32 buf 8
  let mode ← readLe32 buf 12
  let len ← readLe32 buf 16
  pure ⟨seq, err, mode, len⟩

/-- Response-direction processing of `Transport::make_request`
(blobstore.rs lines 111-143), applied to the packet-exchange reply
`restResp`.  `fixedSize` is `ilo.get_rest_response_fixed_size()`.  The
fragmented branch (`receive_mode == 1`) runs the whole
`get_info`/`read_fragment`/`delete_blob` conversation, which we leave as
the oracle `fragmented` (it receives nothing from the fixed response —
the blob size comes from `get_info`).  In the immediate branch
(`receive_mode == 0`) the code seeks to `rest_response_fixed_size` and
then `read_exact`s a vector of `rest_response_fixed_size + data_len`
bytes. -/
def make_request_receive (fixedSize : Nat) (restResp : List Nat)
    (fragmented : Unit → Option (List Nat)) : Option (List Nat) :=
  match parseIloFixedResponse restResp with
  | none => none
  | some parsed =>
    if parsed.receive_mode = 1 then
      fragmented ()
    else if parsed.receive_mode = 0 then
      readSlice restResp fixedSize (fixedSize + parsed.data_len)
    else
      none

end Blobstore

namespace Rest

/-- `MAX_ALLOWED_REQUEST_ATTEMPTS` (rest.rs line 27). -/
def MAX_ALLOWED_REQUEST_ATTEMPTS : Nat := 10

/-- The retry loop of `RestClient::exec` (rest.rs lines 156-166).
`attempt n` is the outcome of the `n`-th (0-based) call to
`transport.make_request`; the returned pair is the final outcome and the
total number of `make_request` calls made.  Mirrors

```
let mut current_try = 0;
let response = loop {
    let resp = transport.make_request(&request);
    if resp.is_ok() || current_try > MAX_ALLOWED_REQUEST_ATTEMPTS {
        break resp;
    }
    current_try += 1;
};
``` -/
def execLoopFrom (attempt : Nat → Except String (List Nat)) (currentTry : Nat) :
    Except String (List Nat) × Nat :=
  let resp := attempt currentTry
  if resp.isOk ∨ currentTry > MAX_ALLOWED_REQUEST_ATTEMPTS then
    (resp, currentTry + 1)
  else
    execLoopFrom attempt (currentTry + 1)
  termination_by MAX_ALLOWED_REQUEST_ATTEMPTS + 1 - currentTry
  decreasing_by
    simp only [not_or] at *
    omega

/-- The retry loop as entered by `RestClient::exec` (`current_try = 0`). -/
def execLoop (attempt : Nat → Except String (List Nat)) :
    Except String (List Nat) × Nat :=
  execLoopFrom attempt 0

end Rest

namespace Hii

open Uefi

/-! ## `package.rs` — GUIDs, packages, package lists -/

/-- Uppercase hexadecimal digit. -/
def hexDigit (n : Nat) : Char :=
  if n < 10 then Char.ofNat (48 + n) else Char.ofNat (55 + n)

/-- `width`-digit zero-padded uppercase hexadecimal rendering (Rust's
`{:0widthX}` for values that fit in `width` digits). -/
def hexN (width v : Nat) : String :=
  String.mk (((List.range width).reverse).map (fun i => hexDigit (v / 16 ^ i % 16)))

/-- `Guid` (package.rs lines 144-151): `(u32, u16, u16, [u8; 8])`. -/
structure Guid where
  data1 : Nat
  data2 : Nat
  data3 : Nat
  data4 : List Nat
  deriving DecidableEq, Repr

/-- `impl fmt::Display for Guid` (package.rs lines 154-172):
`"{:08X}-{:04X}-{:04X}-{:02X}{:02X}-{:02X}{:02X}{:02X}{:02X}{:02X}{:02X}"`. -/
def Guid.render (g : Guid) : String :=
  hexN 8 g.data1 ++ "-" ++ hexN 4 g.data2 ++ "-" ++ hexN 4 g.data3 ++ "-"
    ++ hexN 2 (g.data4.getD 0 0) ++ hexN 2 (g.data4.getD 1 0) ++ "-"
    ++ hexN 2 (g.data4.getD 2 0) ++ hexN 2 (g.data4.getD 3 0)
    ++ hexN 2 (g.data4.getD 4 0) ++ hexN 2 (g.data4.getD 5 0)
    ++ hexN 2 (g.data4.getD 6 0) ++ hexN 2 (g.data4.getD 7 0)

/-! Sequential byte readers in the style of `binrw`'s cursor: a parser
consumes bytes from the front of the list.  `P α` is the
state-over-`Option` monad on the remaining bytes. -/

/-- Byte-stream parser monad: remaining bytes in, value and rest out. -/
abbrev P (α : Type) := StateT (List Nat) Option α

/-- Read one byte (`u8`). -/
def pU8 : P Nat := fun bs =>
  match bs with
  | [] => none
  | b :: rest => some (b, rest)

/-- Read a little-endian `u16`. -/
def pU16 : P Nat := fun bs =>
  match bs with
  | b0 :: b1 :: rest => some (b0 + 256 * b1, rest)
  | _ => none

/-- Read a little-endian `u32`. -/
def pU32 : P Nat := do
  let lo ← pU16
  let hi ← pU16
  pure (lo + 65536 * hi)

/-- Read a little-endian `u64`. -/
def pU64 : P Nat := do
  let lo ← pU32
  let hi ← pU32
  pure (lo + 4294967296 * hi)

/-- Read `n` raw bytes. -/
def pBytes (n : Nat) : P (List Nat) := fun bs =>
  if n ≤ bs.length then some (bs.take n, bs.drop n) else none

/-- Read a `binrw::NullString`: bytes up to (and consuming) the first
zero byte; fails at end-of-stream before the terminator. -/
def pNullBytes : P (List Nat) := fun bs => go bs
where
  /-- Scan for the zero terminator. -/
  go : List Nat → Option (List Nat × List Nat)
    | [] => none
    | b :: rest =>
      if b = 0 then some ([], rest)
      else (go rest).map (fun (s, r) => (b :: s, r))

/-- Read a `binrw::NullWideString`: little-endian `u16` code units up to
(and consuming) the first zero unit. -/
def pNullWideUnits : P (List Nat) := fun bs => go bs
where
  /-- Scan u16 pairs for the zero terminator. -/
  go : List Nat → Option (List Nat × List Nat)
    | b0 :: b1 :: rest =>
      if b0 + 256 * b1 = 0 then some ([], rest)
      else (go rest).map (fun (s, r) => ((b0 + 256 * b1) :: s, r))
    | _ => none

/-- Read a 16-byte `Guid`. -/
def pGuid : P Guid := do
  let d1 ← pU32
  let d2 ← pU16
  let d3 ← pU16
  let d4 ← pBytes 8
  pure ⟨d1, d2, d3, d4⟩

/-- `PackageType` magic bytes (package.rs lines 56-78); every other byte
is `Unknown` and carried through. -/
def packageTypeForm : Nat := 0x02
/-- `PackageType::Strings` magic. -/
def packageTypeStrings : Nat := 0x04
/-- `PackageType::End` magic. -/
def packageTypeEnd : Nat := 0xDF

/-- `Package` (package.rs lines 42-53): 24-bit little-endian length
(read as a `u32` and masked with `0x00FFFFFF`), a type byte at offset 3,
and `length - 4` payload bytes. -/
structure Package where
  length : Nat
  package_type : Nat
  data : List Nat
  deriving DecidableEq, Repr

/-- `binrw` parse of one `Package`; fails when the length underflows or
the payload runs past the end of the buffer. -/
def parsePackage : P Package := do
  let raw ← pU32
  let length := raw % 16777216
  let package_type := raw / 16777216
  if length < 4 then failure
  let data ← pBytes (length - 4)
  pure ⟨length, package_type, data⟩

/-- `PackageList` (package.rs lines 33-40): 16-byte GUID, `u32` total
length, and `length - 16 - 4` payload bytes. -/
structure PackageList where
  guid : Guid
  length : Nat
  data : List Nat
  deriving DecidableEq, Repr

/-- `binrw` parse of one `PackageList`. -/
def parsePackageList : P PackageList := do
  let guid ← pGuid
  let length ← pU32
  if length < 20 then failure
  let data ← pBytes (length - 20)
  pure ⟨guid, length, data⟩

/-- `get_package_lists` loop body (package.rs lines 95-111): keep
parsing package lists while bytes remain; any parse failure aborts.
`fuel` only bounds the recursion: each iteration consumes at least 20
bytes, so the initial `source.length + 1` can never run out. -/
def packageListsLoop (fuel : Nat) (source : List Nat) : Except String (List PackageList) :=
  match fuel with
  | 0 => .error "out of fuel"
  | fuel + 1 =>
    if source.length = 0 then .ok []
    else
      match parsePackageList source with
      | none => .error "Can't parse more package lists"
      | some (pl, rest) =>
        match packageListsLoop fuel rest with
        | .error e => .error e
        | .ok pls => .ok (pl :: pls)

/-- `get_package_lists` (package.rs lines 80-114). -/
def get_package_lists (source : List Nat) : Except String (List PackageList) :=
  packageListsLoop (source.length + 1) source

/-- `get_packages` loop body (package.rs lines 121-139): parse packages
until the `End`-typed package (which is consumed but not kept). -/
def packagesLoop (fuel : Nat) (bytes : List Nat) : Except String (List Package) :=
  match fuel with
  | 0 => .error "out of fuel"
  | fuel + 1 =>
    match parsePackage bytes with
    | none => .error "Can't parse more packages in this package list"
    | some (pkg, rest) =>
      if pkg.package_type = packageTypeEnd then .ok []
      else
        match packagesLoop fuel rest with
        | .error e => .error e
        | .ok pkgs => .ok (pkg :: pkgs)

/-- `get_packages` (package.rs lines 116-142). -/
def get_packages (package_list : PackageList) : Except String (List Package) :=
  packagesLoop (package_list.data.length + 1) package_list.data

/-! ## `strings.rs` — the string-package decoder -/

/-- The Unicode replacement character, used by Rust's
`String::from_utf16_lossy` for unpaired surrogates. -/
def replacementChar : Char := Char.ofNat 0xFFFD

/-- UTF-16 decoding of a list of code units, mirroring
`String::from_utf16_lossy` (which `binrw::NullWideString::to_string`
uses): a high surrogate followed by a low surrogate combines into one
scalar value; any unpaired surrogate becomes U+FFFD. -/
def decodeUtf16 : List Nat → List Char
  | [] => []
  | [u] =>
    if u < 0xD800 ∨ 0xE000 ≤ u then [Char.ofNat u] else [replacementChar]
  | u :: v :: rest =>
    if u < 0xD800 ∨ 0xE000 ≤ u then
      Char.ofNat u :: decodeUtf16 (v :: rest)
    else if u < 0xDC00 then
      if 0xDC00 ≤ v ∧ v < 0xE000 then
        Char.ofNat (0x10000 + (u - 0xD800) * 0x400 + (v - 0xDC00)) :: decodeUtf16 rest
      else
        replacementChar :: decodeUtf16 (v :: rest)
    else
      replacementChar :: decodeUtf16 (v :: rest)

/-- UTF-16 code units to a Lean `String` (`NullWideString::to_string`). -/
def utf16ToString (us : List Nat) : String := String.mk (decodeUtf16 us)

/-- The string map built from one string package:
`HashMap<i32, String>` modelled as an association list with
replace-or-append insertion. -/
abbrev StringMap := List (Int × String)

/-- `HashMap::insert`: replace the value when the key is present,
otherwise add the binding. -/
def smInsert (m : StringMap) (k : Int) (v : String) : StringMap :=
  if (m : List (Int × String)).any (fun p => p.1 = k) then
    (m : List (Int × String)).map (fun p => if p.1 = k then (k, v) else p)
  else (m : List (Int × String)) ++ [(k, v)]

/-- `HashMap::get`. -/
def smGet (m : StringMap) (k : Int) : Option String :=
  ((m : List (Int × String)).find? (fun p => p.1 = k)).map (fun p => p.2)

/-- `StringBlockType` magic bytes used by `handle_string_package`
(strings.rs lines 40-76); every other byte is an unhandled block. -/
def blockEnd : Nat := 0x00
/-- `StringBlockType::StringUcs2` magic. -/
def blockStringUcs2 : Nat := 0x14
/-- `StringBlockType::Skip2` magic. -/
def blockSkip2 : Nat := 0x21
/-- `StringBlockType::Skip1` magic. -/
def blockSkip1 : Nat := 0x22

/-- The block loop of `handle_string_package` (strings.rs lines
96-166): `id` is `string_id_current` (an `i32`, modelled as `Int`; the
claims never approach its overflow), `m` the accumulating string map.
`fuel` only bounds the recursion — every iteration consumes at least one
byte, so `bytes.length + 1` can never run out. -/
def stringBlocks (fuel : Nat) (id : Int) (m : StringMap) (bytes : List Nat) :
    Except String StringMap :=
  match fuel with
  | 0 => .error "out of fuel"
  | fuel + 1 =>
    match bytes with
    | [] => .error "Can't read block header"
    | t :: rest =>
      if t = blockStringUcs2 then
        match pNullWideUnits rest with
        | none => .error "Can't read null-terminated 16-bit string"
        | some (units, rest2) =>
          stringBlocks fuel (id + 1) (smInsert m id (utf16ToString units)) rest2
      else if t = blockSkip2 then
        match rest with
        | lo :: hi :: rest2 => stringBlocks fuel (id + (lo + 256 * hi : Nat)) m rest2
        | _ => .error "Can't read skip count"
      else if t = blockSkip1 then
        match rest with
        | n :: rest2 => stringBlocks fuel (id + (n : Nat)) m rest2
        | [] => .error "Can't read skip count"
      else if t = blockEnd then
        .ok m
      else
        .error "Unhandled block type"

/-- `StringPackageHeader` (strings.rs lines 25-37): `hdr_size: u32`,
`string_info_offset: u32`, `language_window: [u16; 16]`,
`language_name: u16`, then the null-terminated `language` string — 42
fixed bytes plus the language bytes.  Only its size matters downstream;
the fields are read and logged. -/
def parseStringPackageHeader : P (List Nat) := do
  let _hdr_size ← pU32
  let _string_info_offset ← pU32
  let _language_window ← pBytes 32
  let _language_name ← pU16
  let language ← pNullBytes
  pure language

/-- `handle_string_package` (strings.rs lines 78-169): parse the header,
then run the block loop with `string_id_current = 1` and an empty map. -/
def handle_string_package (data : List Nat) : Except String StringMap :=
  match parseStringPackageHeader data with
  | none => .error "failed to parse string package header"
  | some (_language, rest) => stringBlocks (rest.length + 1) 1 [] rest

/-! ## `forms.rs` — the forms-package decoder

`IFROpCode` (forms.rs lines 46-250) is in bijection with its magic byte
(the `Unknown(u8)` fallback covers every unlisted byte), so opcodes are
modelled as the raw byte with named constants for the ones the code
inspects. -/

/-- `IFROpCode::Form` magic. -/
def opForm : Nat := 0x01
/-- `IFROpCode::Subtitle` magic. -/
def opSubtitle : Nat := 0x02
/-- `IFROpCode::Text` magic. -/
def opText : Nat := 0x03
/-- `IFROpCode::OneOf` magic. -/
def opOneOf : Nat := 0x05
/-- `IFROpCode::CheckBox` magic. -/
def opCheckBox : Nat := 0x06
/-- `IFROpCode::Numeric` magic. -/
def opNumeric : Nat := 0x07
/-- `IFROpCode::OneOfOption` magic. -/
def opOneOfOption : Nat := 0x09
/-- `IFROpCode::EqIdVal` magic. -/
def opEqIdVal : Nat := 0x12
/-- `IFROpCode::EqIdValList` magic. -/
def opEqIdValList : Nat := 0x14
/-- `IFROpCode::FormSet` magic. -/
def opFormSet : Nat := 0x0E
/-- `IFROpCode::VarStore` magic. -/
def opVarStore : Nat := 0x24
/-- `IFROpCode::VarStoreEfi` magic. -/
def opVarStoreEfi : Nat := 0x26
/-- `IFROpCode::End` magic. -/
def opEnd : Nat := 0x29
/-- `IFROpCode::QuestionRef1` magic. -/
def opQuestionRef1 : Nat := 0x40
/-- `IFROpCode::Default` magic. -/
def opDefault : Nat := 0x5B
/-- `IFROpCode::DefaultStore` magic. -/
def opDefaultStore : Nat := 0x5C
/-- `DUMMY_OPCODE` (forms.rs line 43): the synthetic root's opcode,
`0xFF`, which matches no recognized magic. -/
def DUMMY_OPCODE : Nat := 0xFF

/-- `QuestionHeader` (forms.rs lines 338-347). -/
structure QuestionHeader where
  prompt_string_id : Nat
  help_string_id : Nat
  question_id : Nat
  var_store_id : Nat
  var_store_info : Nat
  question_flags : Nat
  deriving DecidableEq, Repr

/-- `binrw` parse of a `QuestionHeader` (five `u16`s and a `u8`). -/
def parseQuestionHeader : P QuestionHeader := do
  let prompt ← pU16
  let help ← pU16
  let qid ← pU16
  let vsid ← pU16
  let vsinfo ← pU16
  let flags ← pU8
  pure ⟨prompt, help, qid, vsid, vsinfo, flags⟩

/-- `Range` (forms.rs lines 420-426) with its four width variants
(min, max, step each). -/
inductive Range where
  | range8 (min_value max_value step : Nat)
  | range16 (min_value max_value step : Nat)
  | range32 (min_value max_value step : Nat)
  | range64 (min_value max_value step : Nat)
  deriving DecidableEq, Repr

/-- `range_parser` (forms.rs lines 428-452): width selected by the low
nibble of the flags byte; `0x01 → 16`, `0x02 → 32`, `0x03 → 64`,
anything else `8`. -/
def parseRange (flags : Nat) : P Range := do
  match flags % 16 with
  | 0x01 =>
    let mn ← pU16
    let mx ← pU16
    let st ← pU16
    pure (.range16 mn mx st)
  | 0x02 =>
    let mn ← pU32
    let mx ← pU32
    let st ← pU32
    pure (.range32 mn mx st)
  | 0x03 =>
    let mn ← pU64
    let mx ← pU64
    let st ← pU64
    pure (.range64 mn mx st)
  | _ =>
    let mn ← pU8
    let mx ← pU8
    let st ← pU8
    pure (.range8 mn mx st)

/-- `TypeValue` (forms.rs lines 694-712). -/
inductive TypeValue where
  | NumSize8 (v : Nat)
  | NumSize16 (v : Nat)
  | NumSize32 (v : Nat)
  | NumSize64 (v : Nat)
  | Boolean (b : Bool)
  | TimeVal (hour minute second : Nat)
  | DateVal (year month day : Nat)
  | StringID (id : Nat)
  | Other
  | Undefined
  | Action (v : Nat)
  | RefVal (question_id form_id : Nat)
  | Unknown (b : Nat)
  deriving DecidableEq, Repr

/-- `type_value_parser` (forms.rs lines 714-749): value type byte `0x00`
to `0x04` parse a number or boolean; every other type reads one byte
and yields `Unknown`. -/
def parseTypeValue (value_type : Nat) : P TypeValue := do
  match value_type with
  | 0x00 =>
    let v ← pU8
    pure (.NumSize8 v)
  | 0x01 =>
    let v ← pU16
    pure (.NumSize16 v)
  | 0x02 =>
    let v ← pU32
    pure (.NumSize32 v)
  | 0x03 =>
    let v ← pU64
    pure (.NumSize64 v)
  | 0x04 =>
    let v ← pU8
    pure (.Boolean (v ≠ 0))
  | _ =>
    let v ← pU8
    pure (.Unknown v)

/-- `FormSet` (forms.rs lines 320-328). -/
structure FormSetData where
  guid : Guid
  title_string_id : Nat
  help_string_id : Nat
  flags : Nat
  class_guid : Guid
  deriving DecidableEq, Repr

/-- `OneOf` (forms.rs lines 349-356): question header, flags byte, and
the flag-selected `Range`. -/
structure OneOfData where
  question_header : QuestionHeader
  flags : Nat
  data : Range
  deriving DecidableEq, Repr

/-- `Numeric` (forms.rs lines 364-371): same layout as `OneOf`. -/
structure NumericData where
  question_header : QuestionHeader
  flags : Nat
  data : Range
  deriving DecidableEq, Repr

/-- `CheckBox` (forms.rs lines 454-459). -/
structure CheckBoxData where
  question_header : QuestionHeader
  flags : Nat
  deriving DecidableEq, Repr

/-- `OneOfOption` (forms.rs lines 467-475). -/
structure OneOfOptionData where
  option_string_id : Nat
  flags : Nat
  value_type : Nat
  value : TypeValue
  deriving DecidableEq, Repr

/-- `VarStore` (forms.rs lines 558-565): GUID, id, size, and a
null-terminated name. -/
structure VarStoreData where
  guid : Guid
  var_store_id : Nat
  size : Nat
  name : List Nat
  deriving DecidableEq, Repr

/-- `VarStoreEfi` (forms.rs lines 579-587). -/
structure VarStoreEfiData where
  var_store_id : Nat
  guid : Guid
  attributes : Nat
  size : Nat
  name : List Nat
  deriving DecidableEq, Repr

/-- `ParsedOperation` (forms.rs lines 292-310). -/
inductive ParsedOperation where
  | FormSet (fs : FormSetData)
  | OneOf (q : OneOfData)
  | CheckBox (q : CheckBoxData)
  | OneOfOption (o : OneOfOptionData)
  | VarStore (v : VarStoreData)
  | VarStoreEfi (v : VarStoreEfiData)
  | DefaultStore (name_string_id default_id : Nat)
  | IFRDefault (default_id value_type : Nat)
  | Form (form_id title_string_id : Nat)
  | Text (prompt_string_id help_string_id text_id : Nat)
  | Subtitle (prompt_string_id help_string_id flags : Nat)
  | Numeric (q : NumericData)
  | QuestionRef1 (question_id : Nat)
  | EqIdVal (question_id value : Nat)
  | EqIdValList (question_id : Nat) (value_list : List Nat)
  | Placeholder
  deriving DecidableEq, Repr

/-- `handle_opcode` (forms.rs lines 835-975): specialize a node's
`parsed_data` from its payload bytes according to its opcode;
unrecognized opcodes keep the `Placeholder`.  A parse failure on a
recognized opcode aborts form parsing. -/
def handle_opcode (opCode : Nat) (data : List Nat) : Except String ParsedOperation :=
  if opCode = opFormSet then
    match (do
      let guid ← pGuid
      let title ← pU16
      let help ← pU16
      let flags ← pU8
      let class_guid ← pGuid
      pure (ParsedOperation.FormSet ⟨guid, title, help, flags, class_guid⟩) : P _) data with
    | none => .error "Failed to parse FormSet's data"
    | some (p, _) => .ok p
  else if opCode = opOneOf then
    match (do
      let qh ← parseQuestionHeader
      let flags ← pU8
      let range ← parseRange flags
      pure (ParsedOperation.OneOf ⟨qh, flags, range⟩) : P _) data with
    | none => .error "Failed to parse OneOf's data"
    | some (p, _) => .ok p
  else if opCode = opCheckBox then
    match (do
      let qh ← parseQuestionHeader
      let flags ← pU8
      pure (ParsedOperation.CheckBox ⟨qh, flags⟩) : P _) data with
    | none => .error "Failed to parse CheckBox's data"
    | some (p, _) => .ok p
  else if opCode = opOneOfOption then
    match (do
      let sid ← pU16
      let flags ← pU8
      let vt ← pU8
      let v ← parseTypeValue vt
      pure (ParsedOperation.OneOfOption ⟨sid, flags, vt, v⟩) : P _) data with
    | none => .error "Failed to parse OneOfOption's data"
    | some (p, _) => .ok p
  else if opCode = opVarStore then
    match (do
      let guid ← pGuid
      let vsid ← pU16
      let size ← pU16
      let name ← pNullBytes
      pure (ParsedOperation.VarStore ⟨guid, vsid, size, name⟩) : P _) data with
    | none => .error "Failed to parse VarStore's data"
    | some (p, _) => .ok p
  else if opCode = opVarStoreEfi then
    match (do
      let vsid ← pU16
      let guid ← pGuid
      let attributes ← pU32
      let size ← pU16
      let name ← pNullBytes
      pure (ParsedOperation.VarStoreEfi ⟨vsid, guid, attributes, size, name⟩) : P _) data with
    | none => .error "Failed to parse VarStoreEfi's data"
    | some (p, _) => .ok p
  else if opCode = opDefaultStore then
    match (do
      let name ← pU16
      let did ← pU16
      pure (ParsedOperation.DefaultStore name did) : P _) data with
    | none => .error "Failed to parse DefaultStore's data"
    | some (p, _) => .ok p
  else if opCode = opDefault then
    match (do
      let did ← pU16
      let vt ← pU8
      pure (ParsedOperation.IFRDefault did vt) : P _) data with
    | none => .error "Failed to parse Default's data"
    | some (p, _) => .ok p
  else if opCode = opForm then
    match (do
      let fid ← pU16
      let title ← pU16
      pure (ParsedOperation.Form fid title) : P _) data with
    | none => .error "Failed to parse Form's data"
    | some (p, _) => .ok p
  else if opCode = opText then
    match (do
      let prompt ← pU16
      let help ← pU16
      let tid ← pU16
      pure (ParsedOperation.Text prompt help tid) : P _) data with
    | none => .error "Failed to parse Text's data"
    | some (p, _) => .ok p
  else if opCode = opSubtitle then
    match (do
      let prompt ← pU16
      let help ← pU16
      let flags ← pU8
      pure (ParsedOperation.Subtitle prompt help flags) : P _) data with
    | none => .error "Failed to parse Subtitle's data"
    | some (p, _) => .ok p
  else if opCode = opNumeric then
    match (do
      let qh ← parseQuestionHeader
      let flags ← pU8
      let range ← parseRange flags
      pure (ParsedOperation.Numeric ⟨qh, flags, range⟩) : P _) data with
    | none => .error "Failed to parse Numeric's data"
    | some (p, _) => .ok p
  else if opCode = opQuestionRef1 then
    match (do
      let qid ← pU16
      pure (ParsedOperation.QuestionRef1 qid) : P _) data with
    | none => .error "Failed to parse QuestionRef1's data"
    | some (p, _) => .ok p
  else if opCode = opEqIdVal then
    match (do
      let qid ← pU16
      let v ← pU16
      pure (ParsedOperation.EqIdVal qid v) : P _) data with
    | none => .error "Failed to parse EqIdVal's data"
    | some (p, _) => .ok p
  else if opCode = opEqIdValList then
    match (do
      let qid ← pU16
      let n ← pU16
      let vs ← (List.range n).foldlM (fun acc _ => do
        let v ← pU16
        pure (acc ++ [v])) []
      pure (ParsedOperation.EqIdValList qid vs) : P _) data with
    | none => .error "Failed to parse EqIdValList's data"
    | some (p, _) => .ok p
  else
    .ok .Placeholder

/-- `IFROperation` as a finished tree node (forms.rs lines 256-277);
the parent back-reference is represented by the tree structure itself
(children are reachable from their parent, and upward walks take the
path from the root). -/
inductive IFRNode where
  | mk (op_code : Nat) (open_scope : Bool) (data : List Nat)
      (parsed_data : ParsedOperation) (children : List IFRNode)
  deriving Repr

/-- Opcode of a node. -/
def IFRNode.op_code : IFRNode → Nat
  | .mk op _ _ _ _ => op

/-- Open-scope bit of a node. -/
def IFRNode.open_scope : IFRNode → Bool
  | .mk _ os _ _ _ => os

/-- Payload bytes of a node. -/
def IFRNode.data : IFRNode → List Nat
  | .mk _ _ d _ _ => d

/-- Specialized payload of a node. -/
def IFRNode.parsed_data : IFRNode → ParsedOperation
  | .mk _ _ _ p _ => p

/-- Children of a node, in order. -/
def IFRNode.children : IFRNode → List IFRNode
  | .mk _ _ _ _ cs => cs

/-- An open scope during form parsing: a node whose children are still
being collected. -/
structure Frame where
  op_code : Nat
  open_scope : Bool
  data : List Nat
  parsed_data : ParsedOperation
  children : List IFRNode

/-- Close a frame into a finished node. -/
def Frame.finish (f : Frame) : IFRNode :=
  .mk f.op_code f.open_scope f.data f.parsed_data f.children

/-- Append a finished child to a frame. -/
def Frame.addChild (f : Frame) (c : IFRNode) : Frame :=
  { f with children := f.children ++ [c] }

/-- The synthetic root (forms.rs lines 756-764): dummy opcode, no data. -/
def rootFrame : Frame := ⟨DUMMY_OPCODE, false, [], .Placeholder, []⟩

/-- Collapse a scope stack into the root node, attaching each still-open
frame to its parent with the children it has so far (what the source's
in-place tree holds when parsing breaks mid-scope). -/
def collapseStack : List Frame → IFRNode
  | [] => rootFrame.finish
  | [f] => f.finish
  | top :: parent :: rest => collapseStack (parent.addChild top.finish :: rest)
  termination_by fs => fs.length

/-- One raw `IFROperation` read (forms.rs lines 256-267): opcode byte,
header byte whose low 7 bits are the header length and high bit the
opens-scope flag, then `length - 2` payload bytes.  A header length
under 2 underflows the payload count and aborts. -/
def parseIFROperation : P (Nat × Nat × Bool × List Nat) := do
  let op ← pU8
  let hdr ← pU8
  let length := hdr % 128
  let open_scope := 128 ≤ hdr
  if length < 2 then failure
  let data ← pBytes (length - 2)
  pure (op, length, open_scope, data)

/-- The scope-tracking loop of `handle_form_package` (forms.rs lines
770-830).  The stack holds the current scope on top and the synthetic
root at the bottom.  `End` closes the current scope; reaching the
dummy-opcode scope terminates the package (one top-level FormSet is
assumed).  Other nodes are specialized with `handle_opcode`, attached as
the last child of the current scope, and open a new scope when their
open-scope bit is set.  `fuel` only bounds the recursion — every
iteration consumes at least two bytes. -/
def formLoop (fuel : Nat) (bytes : List Nat) (stack : List Frame) :
    Except String IFRNode :=
  match fuel with
  | 0 => .error "out of fuel"
  | fuel + 1 =>
    match parseIFROperation bytes with
    | none => .error "Failed to parse IFR operation"
    | some ((op, _length, open_scope, data), rest) =>
      if op = opEnd then
        match stack with
        | [] => .error "scope stack empty"
        | [root] =>
          if root.op_code = DUMMY_OPCODE then .ok root.finish
          else formLoop fuel rest [root]
        | top :: parent :: stackRest =>
          let parent2 := parent.addChild top.finish
          if parent2.op_code = DUMMY_OPCODE then .ok (collapseStack (parent2 :: stackRest))
          else formLoop fuel rest (parent2 :: stackRest)
      else
        match handle_opcode op data with
        | .error e => .error e
        | .ok parsed =>
          if open_scope then
            formLoop fuel rest (⟨op, open_scope, data, parsed, []⟩ :: stack)
          else
            match stack with
            | [] => .error "scope stack empty"
            | top :: stackRest =>
              formLoop fuel rest
                (top.addChild (.mk op open_scope data parsed []) :: stackRest)

/-- `handle_form_package` (forms.rs lines 751-833). -/
def handle_form_package (data : List Nat) : Except String IFRNode :=
  formLoop (data.length + 1) data [rootFrame]

/-! ## `package.rs` — `read_db` -/

/-- Association list with `HashMap`-style replace-or-append insertion,
for the GUID-keyed maps of `ParsedHiiDB`. -/
def alInsert {α : Type} (l : List (String × α)) (k : String) (v : α) :
    List (String × α) :=
  if l.any (fun p => p.1 = k) then
    l.map (fun p => if p.1 = k then (k, v) else p)
  else l ++ [(k, v)]

/-- Key set of such an association list. -/
def alKeys {α : Type} (l : List (String × α)) : List String := l.map Prod.fst

/-- `ParsedHiiDB` (package.rs lines 185-191): package-list GUID string to
string maps, and to forms-package roots. -/
structure ParsedHiiDB where
  strings : List (String × List StringMap)
  forms : List (String × List IFRNode)

/-- The per-package-list package walk of `read_db` (package.rs lines
213-235): `Strings` packages feed `handle_string_package`, `Form`
packages feed `handle_form_package`, anything else is skipped; the first
failure aborts. -/
def processPackages : List Package → Except String (List StringMap × List IFRNode)
  | [] => .ok ([], [])
  | p :: rest =>
    if p.package_type = packageTypeStrings then
      match handle_string_package p.data with
      | .error e => .error e
      | .ok sm =>
        match processPackages rest with
        | .error e => .error e
        | .ok (sms, roots) => .ok (sm :: sms, roots)
    else if p.package_type = packageTypeForm then
      match handle_form_package p.data with
      | .error e => .error e
      | .ok root =>
        match processPackages rest with
        | .error e => .error e
        | .ok (sms, roots) => .ok (sms, root :: roots)
    else processPackages rest

/-- The package-list walk of `read_db` (package.rs lines 206-244): the
string maps are recorded under the package list's GUID only when at
least one string package was parsed, and likewise the form roots. -/
def readDbLists : List PackageList → ParsedHiiDB → Except String ParsedHiiDB
  | [], acc => .ok acc
  | pl :: rest, acc =>
    match get_packages pl with
    | .error e => .error e
    | .ok pkgs =>
      match processPackages pkgs with
      | .error e => .error e
      | .ok (sms, roots) =>
        let package_list_guid := pl.guid.render
        let acc1 :=
          if sms.isEmpty then acc
          else { acc with strings := alInsert acc.strings package_list_guid sms }
        let acc2 :=
          if roots.isEmpty then acc1
          else { acc1 with forms := alInsert acc1.forms package_list_guid roots }
        readDbLists rest acc2

/-- `read_db` (package.rs lines 200-246). -/
def read_db (source : List Nat) : Except String ParsedHiiDB :=
  match get_package_lists source with
  | .error e => .error e
  | .ok pls => readDbLists pls ⟨[], []⟩

/-- The invariant claimed for `ParsedHiiDB`: every key of the forms map
is a key of the strings map. -/
def formsKeysHaveStrings (db : ParsedHiiDB) : Bool :=
  db.forms.all (fun p => db.strings.any (fun q => q.1 = p.1))

/-- A package list in which every `Form` package comes with at least one
`Strings` package (vacuously true when its packages don't parse).  The
amended C2 invariant holds exactly under this side condition. -/
def formsImplyStrings (pl : PackageList) : Bool :=
  match get_packages pl with
  | .error _ => true
  | .ok pkgs =>
    !(pkgs.any (fun p => p.package_type = packageTypeForm)) ||
      pkgs.any (fun p => p.package_type = packageTypeStrings)

/-! ## `forms.rs` — questions, varstore I/O, and the guard stack

The filesystem and the mount/attribute syscalls are modelled by an
explicit state.  The efivarfs mount flags are split into the
`MS_RDONLY` bit (the only one `EfivarsMountGuard` manipulates) and the
remaining bits; the target file's inode attributes into the
`FS_IMMUTABLE_FL` bit (`0x10`, the only one `EfivarsImmutabilityGuard`
manipulates) and the remaining bits. -/

/-- efivarfs mount flags: the `MS_RDONLY` bit and all other flag bits. -/
structure MountFlags where
  rdonly : Bool
  others : Nat
  deriving DecidableEq, Repr

/-- Target-file inode attribute flags: the `FS_IMMUTABLE_FL` bit and all
other bits. -/
structure FileAttrs where
  immutable : Bool
  others : Nat
  deriving DecidableEq, Repr

/-- The system state `write_at_offset` runs against.  `file` is the
efivarfs file backing the varstore (`none` = absent); `lockContended`
models another process holding `/run/lock/efibootmgr-remount`;
`writeSucceeds` models whether the final `File::create` + `write_all`
succeeds. -/
structure SysState where
  mountFlags : MountFlags
  fileAttrs : FileAttrs
  file : Option (List Nat)
  lockContended : Bool
  writeSucceeds : Bool
  deriving DecidableEq, Repr

/-- `EfivarsMountGuard::new` (efivarfs.rs lines 31-56): record the
current flags; when `MS_RDONLY` is set, remount without it (the
`MS_REMOUNT` bit is the operation, not persisted state). -/
def mountGuardNew (st : SysState) : MountFlags × SysState :=
  let original_flags := st.mountFlags
  if original_flags.rdonly then
    (original_flags, { st with mountFlags := { original_flags with rdonly := false } })
  else
    (original_flags, st)

/-- `Drop for EfivarsMountGuard` (efivarfs.rs lines 58-79): when the
original flags had `MS_RDONLY`, remount with the original flags. -/
def mountGuardDrop (original_flags : MountFlags) (st : SysState) : SysState :=
  if original_flags.rdonly then { st with mountFlags := original_flags } else st

/-- `EfivarsImmutabilityGuard::new` (chattr.rs lines 130-148): read the
attributes; when `FS_IMMUTABLE_FL` is set, clear it (preserving the
other bits, as `clear_attrs!` does). -/
def immGuardNew (st : SysState) : FileAttrs × SysState :=
  let attrs_before_writing := st.fileAttrs
  if attrs_before_writing.immutable then
    (attrs_before_writing,
      { st with fileAttrs := { attrs_before_writing with immutable := false } })
  else
    (attrs_before_writing, st)

/-- `Drop for EfivarsImmutabilityGuard` (chattr.rs lines 150-172): when
the attributes before writing had `FS_IMMUTABLE_FL`, set it again on the
current attributes (as `set_attrs!` does, best effort). -/
def immGuardDrop (attrs_before_writing : FileAttrs) (st : SysState) : SysState :=
  if attrs_before_writing.immutable then
    { st with fileAttrs := { st.fileAttrs with immutable := true } }
  else st

/-- `Cursor<Vec<u8>>`'s `Write` at a given position: zero-pad up to the
position when the buffer is shorter, then overwrite (extending as
needed). -/
def cursorWriteBytes (buf : List Nat) (pos : Nat) (bytes : List Nat) : List Nat :=
  let padded := if buf.length < pos then buf ++ List.replicate (pos - buf.length) 0 else buf
  padded.take pos ++ bytes ++ padded.drop (pos + bytes.length)

/-- The little-endian bytes `write_at_offset` emits for a `TypeValue`
(forms.rs lines 532-538): only the four fixed-width numeric variants
write anything. -/
def typeValueBytes : TypeValue → List Nat
  | .NumSize8 v => [v % 256]
  | .NumSize16 v => [v % 256, v / 256 % 256]
  | .NumSize32 v => [v % 256, v / 256 % 256, v / 65536 % 256, v / 16777216 % 256]
  | .NumSize64 v => [v % 256, v / 256 % 256, v / 65536 % 256, v / 16777216 % 256,
      v / 4294967296 % 256, v / 1099511627776 % 256,
      v / 281474976710656 % 256, v / 72057594037927936 % 256]
  | _ => []

/-- `VariableStore::write_at_offset` (forms.rs lines 503-555) as a state
transformer: acquire the non-blocking lock, read the file, write the
value's little-endian bytes at `4 + offset` into the in-memory copy,
raise the mount and immutability guards, rewrite the whole file
(truncating), then drop the guards in reverse acquisition order.  Error
paths drop whatever guards are live (Rust scope unwinding). -/
def write_at_offset (offset : Nat) (data : TypeValue) (st : SysState) :
    Except String Unit × SysState :=
  if st.lockContended then
    (.error "could not acquire file lock", st)
  else
    match st.file with
    | none => (.error "Failed to open efivarfs file to get varstore bytes", st)
    | some file_contents =>
      let mutated :=
        match data with
        | .NumSize8 _ | .NumSize16 _ | .NumSize32 _ | .NumSize64 _ =>
          cursorWriteBytes file_contents (4 + offset) (typeValueBytes data)
        | _ => file_contents
      let (original_flags, st1) := mountGuardNew st
      let (attrs_before, st2) := immGuardNew st1
      if st2.writeSucceeds then
        let st3 := { st2 with file := some mutated }
        (.ok (), mountGuardDrop original_flags (immGuardDrop attrs_before st3))
      else
        (.error "Failed to write to efivarfs file",
          mountGuardDrop original_flags (immGuardDrop attrs_before st2))

/-- The `VariableStore` trait-object view (forms.rs lines 477-501):
name, rendered GUID string, and declared size. -/
structure VarStoreView where
  name : String
  guid : String
  size : Nat
  deriving DecidableEq, Repr

/-- `VariableStore::store_filename` (forms.rs lines 482-488). -/
def store_filename (vs : VarStoreView) : String :=
  "/sys/firmware/efi/efivars/" ++ vs.name ++ "-" ++ vs.guid.toLower

/-- `VariableStore::read_bytes` (forms.rs lines 491-501) against a
filesystem oracle `fs` mapping paths to file contents: open the efivarfs
file and read exactly `size` bytes; a missing or too-short file fails. -/
def read_bytes (fs : String → Option (List Nat)) (vs : VarStoreView) :
    Option (List Nat) :=
  match fs (store_filename vs) with
  | none => none
  | some contents =>
    if vs.size ≤ contents.length then some (contents.take vs.size) else none

/-- `RangeType` (forms.rs lines 413-418). -/
inductive RangeType where
  | NumSize8 (v : Nat)
  | NumSize16 (v : Nat)
  | NumSize32 (v : Nat)
  | NumSize64 (v : Nat)
  deriving DecidableEq, Repr

/-- `AnswerOption` (forms.rs lines 998-1002). -/
structure AnswerOption where
  value : String
  raw_value : TypeValue
  deriving DecidableEq, Repr

/-- `QuestionDescriptor` (forms.rs lines 977-986). -/
structure QuestionDescriptor where
  question : String
  help : String
  value : String
  max_value : RangeType
  opcode : Nat
  possible_options : List AnswerOption
  header : QuestionHeader
  varstore : Option VarStoreView
  deriving Repr

/-- `str::eq_ignore_ascii_case`. -/
def asciiLower (c : Char) : Char :=
  if 'A' ≤ c ∧ c ≤ 'Z' then Char.ofNat (c.toNat + 32) else c

/-- ASCII case-insensitive string equality. -/
def eqIgnoreAsciiCase (a b : String) : Bool :=
  a.data.map asciiLower = b.data.map asciiLower

/-- Rust's `str::parse::<uN>()`: an optional leading `+`, then one or
more ASCII digits; any other character or a value above the type's
maximum is an error. -/
def parseUIntRust (maxVal : Nat) (s : String) : Option Nat :=
  let digits :=
    match s.data with
    | '+' :: rest => rest
    | cs => cs
  if digits.isEmpty then none
  else if digits.all Char.isDigit then
    let v := digits.foldl (fun acc c => acc * 10 + (c.toNat - 48)) 0
    if v ≤ maxVal then some v else none
  else none

/-- `u8::MAX`. -/
def u8Max : Nat := 255
/-- `u16::MAX`. -/
def u16Max : Nat := 65535
/-- `u32::MAX`. -/
def u32Max : Nat := 4294967295
/-- `u64::MAX`. -/
def u64Max : Nat := 18446744073709551615

/-- `ChangeValueError` (forms.rs lines 1606-1615); `Other` carries the
wrapped `anyhow` message. -/
inductive ChangeValueError where
  | InvalidOption
  | ExceededMaxValue
  | Other (msg : String)
  deriving DecidableEq, Repr

/-- `change_value` (forms.rs lines 1617-1694) as a state transformer.
No varstore: succeed without writing, reporting `false`.  A `OneOf`
question writes the raw value of the first option whose label matches
the new value ASCII-case-insensitively, or fails `InvalidOption`.  Any
other opcode parses the new value at the width of `max_value`, fails
`ExceededMaxValue` when it exceeds the maximum, and otherwise writes. -/
def change_value (question : QuestionDescriptor) (new_value : String) (st : SysState) :
    Except ChangeValueError Bool × SysState :=
  match question.varstore with
  | none => (.ok false, st)
  | some _varstore =>
    if question.opcode = opOneOf then
      match question.possible_options.find? (fun o => eqIgnoreAsciiCase o.value new_value) with
      | none => (.error .InvalidOption, st)
      | some opt =>
        match write_at_offset question.header.var_store_info opt.raw_value st with
        | (.ok _, st2) => (.ok true, st2)
        | (.error e, st2) => (.error (.Other e), st2)
    else
      match question.max_value with
      | .NumSize8 m =>
        match parseUIntRust u8Max new_value with
        | none => (.error (.Other "value should fit in a u8"), st)
        | some data_to_write =>
          if data_to_write > m then (.error .ExceededMaxValue, st)
          else
            match write_at_offset question.header.var_store_info
                (.NumSize8 data_to_write) st with
            | (.ok _, st2) => (.ok true, st2)
            | (.error e, st2) => (.error (.Other e), st2)
      | .NumSize16 m =>
        match parseUIntRust u16Max new_value with
        | none => (.error (.Other "value should fit in a u16"), st)
        | some data_to_write =>
          if data_to_write > m then (.error .ExceededMaxValue, st)
          else
            match write_at_offset question.header.var_store_info
                (.NumSize16 data_to_write) st with
            | (.ok _, st2) => (.ok true, st2)
            | (.error e, st2) => (.error (.Other e), st2)
      | .NumSize32 m =>
        match parseUIntRust u32Max new_value with
        | none => (.error (.Other "value should fit in a u32"), st)
        | some data_to_write =>
          if data_to_write > m then (.error .ExceededMaxValue, st)
          else
            match write_at_offset question.header.var_store_info
                (.NumSize32 data_to_write) st with
            | (.ok _, st2) => (.ok true, st2)
            | (.error e, st2) => (.error (.Other e), st2)
      | .NumSize64 m =>
        match parseUIntRust u64Max new_value with
        | none => (.error (.Other "value should fit in a u64"), st)
        | some data_to_write =>
          if data_to_write > m then (.error .ExceededMaxValue, st)
          else
            match write_at_offset question.header.var_store_info
                (.NumSize64 data_to_write) st with
            | (.ok _, st2) => (.ok true, st2)
            | (.error e, st2) => (.error (.Other e), st2)

/-- `find_corresponding_string` (forms.rs lines 1696-1717): first
definition of the id across the package list's string maps; missing ids
give the empty string. -/
def find_corresponding_string (string_id : Nat) (string_packages : List StringMap) :
    String :=
  match string_packages with
  | [] => ""
  | package :: rest =>
    match smGet package (string_id : Int) with
    | some s => s
    | none => find_corresponding_string string_id rest

/-- Byte width of a `Range`. -/
def rangeByteWidth : Range → Nat
  | .range8 _ _ _ => 1
  | .range16 _ _ _ => 2
  | .range32 _ _ _ => 4
  | .range64 _ _ _ => 8

/-- `max_value` as recorded in the descriptor (forms.rs lines
1314-1319). -/
def rangeMaxValue : Range → RangeType
  | .range8 _ mx _ => .NumSize8 mx
  | .range16 _ mx _ => .NumSize16 mx
  | .range32 _ mx _ => .NumSize32 mx
  | .range64 _ mx _ => .NumSize64 mx

/-- `extract_efi_data` (forms.rs lines 1759-1775): skip the 4-byte
kernel attribute prefix plus the offset and read a `width`-byte
little-endian value; fails past the end of the buffer. -/
def extract_efi_data (width offset : Nat) (bytes : List Nat) : Option Nat :=
  if 4 + offset + width ≤ bytes.length then
    some (((bytes.drop (4 + offset)).take width).foldr (fun b acc => b + 256 * acc) 0)
  else none

/-- The `u64` cast `handle_oneof` applies to an option's `TypeValue`
(forms.rs lines 1276-1282): numeric variants cast, everything else is
`0`. -/
def optionValueU64 : TypeValue → Nat
  | .NumSize8 v => v
  | .NumSize16 v => v
  | .NumSize32 v => v
  | .NumSize64 v => v
  | _ => 0

/-- `handle_oneof` (forms.rs lines 1215-1323).  `varstore` is the result
of `find_corresponding_varstore`; `children` the question node's
children; `nodeOpCode` the node's opcode.  When the varstore is missing
or unreadable the answer is `"Unknown"` and option enumeration is
skipped entirely; otherwise the answer is the trimmed label of the first
`OneOfOption` child whose value equals the stored value (`"Unknown"` on
miss), and every `OneOfOption` child becomes a possible option. -/
def handle_oneof (fs : String → Option (List Nat))
    (varstore : Except String VarStoreView) (parsed : OneOfData)
    (children : List IFRNode) (string_packages : List StringMap)
    (question : String) (nodeOpCode : Nat) : QuestionDescriptor :=
  let readResult : Option (List Nat) :=
    match varstore with
    | .error _ => none
    | .ok vstore => read_bytes fs vstore
  let answerOptions : String × List AnswerOption :=
    match readResult with
    | none => ("Unknown", [])
    | some bytes =>
      let chosen_value : Nat :=
        match extract_efi_data (rangeByteWidth parsed.data)
            parsed.question_header.var_store_info bytes with
        | some v => v
        | none => 0
      let optionNodes := children.filterMap (fun c =>
        match c.parsed_data with
        | .OneOfOption o => some o
        | _ => none)
      let possible_options := optionNodes.map (fun o =>
        { value := find_corresponding_string o.option_string_id string_packages,
          raw_value := o.value : AnswerOption })
      let answer :=
        match optionNodes.find? (fun o => optionValueU64 o.value = chosen_value) with
        | some o => (find_corresponding_string o.option_string_id string_packages).trim
        | none => "Unknown"
      (answer, possible_options)
  { question := question.trim
    value := answerOptions.1
    help := find_corresponding_string parsed.question_header.help_string_id string_packages
    possible_options := answerOptions.2
    header := parsed.question_header
    varstore := varstore.toOption
    max_value := rangeMaxValue parsed.data
    opcode := nodeOpCode }

/-- The `uN::MAX` bound at which `change_value` parses for a given
`max_value` width. -/
def rangeTypeWidthMax : RangeType → Nat
  | .NumSize8 _ => u8Max
  | .NumSize16 _ => u16Max
  | .NumSize32 _ => u32Max
  | .NumSize64 _ => u64Max

/-- The question's `max_value` as a number. -/
def rangeTypeMaxNat : RangeType → Nat
  | .NumSize8 m => m
  | .NumSize16 m => m
  | .NumSize32 m => m
  | .NumSize64 m => m

/-- The parse `change_value` performs: the new value at the width
dictated by the question's range. -/
def parseAtWidth (rt : RangeType) (s : String) : Option Nat :=
  parseUIntRust (rangeTypeWidthMax rt) s

end Hii

namespace Blobstore

open Uefi

/-- `Transport::make_request` (blobstore.rs lines 67-144).  The foreign
library is the oracle `libReply` (reply per send buffer); the
multi-packet request branch (taken when the request doesn't fit in one
immediate write) and the fragmented-response conversation are the
oracles `multiPacketPath` / `fragmentedPath`.  On the immediate path the
request is one `prepare_immediate_request` template plus the raw
request, exchanged once; the reply is then processed by
`make_request_receive`. -/
def make_request (maxWriteSize immediateRequestSize restResponseFixedSize : Nat)
    (prepareImmediateRequest : Nat → List Nat)
    (libReply : List Nat → Except Nat (List Nat))
    (multiPacketPath : Unit → Except String (List Nat))
    (fragmentedPath : Unit → Option (List Nat))
    (request : List Nat) : Except String (List Nat) :=
  let restRespE : Except String (List Nat) :=
    if request.length < maxWriteSize + immediateRequestSize then
      let packet_to_send := prepareImmediateRequest request.length ++ request
      match exchange_packet packet_to_send (libReply packet_to_send) with
      | .ok r => .ok r
      | .error _ => .error "Failed to get rest response"
    else
      multiPacketPath ()
  match restRespE with
  | .error e => .error e
  | .ok rest_resp =>
    match make_request_receive restResponseFixedSize rest_resp fragmentedPath with
    | some bytes => .ok bytes
    | none => .error "failed to process rest response"

end Blobstore

namespace Fixtures

open Uefi Blobstore Rest Hii

/-! Concrete inputs used by counterexamples and witnesses. -/

/-- A Blobstore2 reply for the immediate path: sequence number 0, error
code 0, `receive_mode = 0`, `data_len = 120` (little-endian at offset
16), padded to 184 bytes. -/
def c1resp : List Nat := (List.range 184).map (fun i => if i = 16 then 120 else 0)

/-- A 32-byte request (sequence number bytes are 0). -/
def c1request : List Nat := List.replicate 32 0

/-- All-zero GUID bytes. -/
def zeroGuidBytes : List Nat := List.replicate 16 0

/-- The rendered all-zero GUID. -/
def zeroGuidString : String := "00000000-0000-0000-0000-000000000000"

/-- A forms package whose IFR stream is a single `End` opcode
(`0x29`, header length 2): the scope loop terminates at the root at
once. -/
def formOnlyPkg : List Nat := [6, 0, 0, 2] ++ [0x29, 0x02]

/-- An `End`-typed package (type `0xDF`, length 4). -/
def endPkg : List Nat := [4, 0, 0, 0xDF]

/-- A package list (zero GUID, length 30) holding one forms package and
no strings package. -/
def c2buf : List Nat := zeroGuidBytes ++ [30, 0, 0, 0] ++ formOnlyPkg ++ endPkg

/-- A strings package: 42-byte fixed header, language `"e"`, then an
`End` string block. -/
def stringsPkg : List Nat := [49, 0, 0, 4] ++ (List.replicate 42 0 ++ [101, 0] ++ [0])

/-- A package list (zero GUID, length 79) holding a strings package and
a forms package. -/
def c2bufPaired : List Nat := zeroGuidBytes ++ [79, 0, 0, 0] ++ stringsPkg ++ formOnlyPkg ++ endPkg

/-- A demo varstore view. -/
def vsDemo : VarStoreView := ⟨"Setup", zeroGuidString, 16⟩

/-- A demo pre-call system state: efivarfs mounted read-only, target
file immutable, 8 zero bytes on disk, lock free, write succeeding. -/
def st0 : SysState := ⟨⟨true, 6⟩, ⟨true, 64⟩, some (List.replicate 8 0), false, true⟩

/-- A Numeric question: `max = 255`, 8-bit range, `var_store_info = 2`,
varstore present, no options. -/
def q8Demo : QuestionDescriptor :=
  { question := "Demo numeric"
    help := ""
    value := "0"
    max_value := .NumSize8 255
    opcode := opNumeric
    possible_options := []
    header := ⟨1, 2, 3, 1, 2, 0⟩
    varstore := some vsDemo }

/-- The same question with `max = 100`. -/
def q8Max100 : QuestionDescriptor := { q8Demo with max_value := .NumSize8 100 }

/-- A OneOf question with an empty option list and a present varstore. -/
def qOneOfEmptyDemo : QuestionDescriptor :=
  { q8Demo with opcode := opOneOf, possible_options := [] }

/-- A filesystem with no files. -/
def fsEmpty : String → Option (List Nat) := fun _ => none

/-- A demo OneOf payload: 16-bit range over offset 6. -/
def oneOfDemo : OneOfData := ⟨⟨1, 2, 3, 1, 6, 0⟩, 1, .range16 0 2 1⟩

/-- A `OneOfOption` child node. -/
def optChildDemo : IFRNode :=
  .mk opOneOfOption false [] (.OneOfOption ⟨4, 0, 0, .NumSize8 1⟩) []

/-- A transport attempt that always fails. -/
def failingAttempt : Nat → Except String (List Nat) := fun _ => .error "transport failure"

/-- A send buffer with sequence number 7. -/
def sendSeq7 : List Nat := [0, 0, 7, 0]

/-- A receive buffer with sequence number 7 and error code 0. -/
def recvSeq7Ok : List Nat := [0, 0, 7, 0, 0, 0, 0, 0, 0, 0, 0, 0]

/-- A receive buffer with sequence number 8 and error code 0. -/
def recvSeq8 : List Nat := [0, 0, 8, 0, 0, 0, 0, 0, 0, 0, 0, 0]

/-- A receive buffer with sequence number 7 and error code 5. -/
def recvSeq7Err5 : List Nat := [0, 0, 7, 0, 0, 0, 0, 0, 5, 0, 0, 0]

/-- The package lists parsed from `c2bufPaired`. -/
def c2PairedLists : List PackageList := (get_package_lists c2bufPaired).toOption.getD []

/-- The database parsed from `c2bufPaired`. -/
def c2PairedDb : ParsedHiiDB := (read_db c2bufPaired).toOption.getD ⟨[], []⟩

end Fixtures

section Theorems

open Uefi Blobstore Rest Hii Fixtures

/-- C6: for every question whose backing varstore cannot be resolved
(the descriptor's varstore is absent), `change_value` succeeds as a
no-op: it performs no write (the state is unchanged), returns without
error, and reports `modified = false`. -/
theorem C6_missing_varstore_noop (q : QuestionDescriptor) (v : String) (st : SysState)
    (h : q.varstore = none) : change_value q v st = (.ok false, st) := by
  simp [change_value, h]

/-- C6 witness: a concrete varstore-less question. -/
theorem C6_missing_varstore_noop_witness :
    change_value { q8Demo with varstore := none } "64" st0 = (.ok false, st0) :=
  C6_missing_varstore_noop _ _ _ rfl

/-- C7: after every code path through `write_at_offset` (lock
contention, missing file, failed or successful final write), the
efivarfs mount flags and the target file's attribute flags equal their
pre-call values: the mount guard remounts with the original flags on
drop exactly when it had remounted read-write, and the immutability
guard re-sets `FS_IMMUTABLE_FL` on drop exactly when it was set before,
the guards unwinding in reverse acquisition order. -/
theorem C7_guard_restoration (offset : Nat) (data : TypeValue) (st : SysState) :
    (write_at_offset offset data st).2.mountFlags = st.mountFlags ∧
    (write_at_offset offset data st).2.fileAttrs = st.fileAttrs := by
  obtain ⟨⟨ro, mo⟩, ⟨im, ao⟩, file, lock, ws⟩ := st
  simp only [write_at_offset, mountGuardNew, immGuardNew, mountGuardDrop, immGuardDrop]
  cases lock <;> cases file <;> cases ro <;> cases im <;> cases ws <;> simp

/-- C4 (amended): `change_value` chooses the option path by opcode, not
by whether the option list is empty: a question whose opcode is not
`OneOf` never fails `InvalidOption` (any parseable in-range string takes
the raw write path), while a `OneOf` question with an empty
`possible_options` list and a present varstore always fails
`InvalidOption`. -/
theorem C4_raw_path_by_opcode :
    (∀ (q : QuestionDescriptor) (v : String) (st : SysState),
      q.opcode ≠ opOneOf →
      (change_value q v st).1 ≠ .error .InvalidOption) ∧
    (∀ (q : QuestionDescriptor) (v : String) (st : SysState) (vs : VarStoreView),
      q.opcode = opOneOf → q.varstore = some vs → q.possible_options = [] →
      change_value q v st = (.error .InvalidOption, st)) := by
  constructor
  · intro q v st h
    unfold change_value
    cases hv : q.varstore with
    | none => simp
    | some vs =>
      simp only [h, if_false]
      split <;>
        · split
          · simp
          · split
            · simp
            · split <;> simp
  · intro q v st vs h1 h2 h3
    simp [change_value, h1, h2, h3]

/-- C4 witnesses: a Numeric question with empty options takes the raw
path ("InvalidOption" is impossible), and a OneOf question with empty
options and a varstore fails `InvalidOption` on the same input. -/
theorem C4_raw_path_by_opcode_witness :
    (change_value q8Demo "64" st0).1 ≠ .error .InvalidOption ∧
    change_value qOneOfEmptyDemo "64" st0 = (.error .InvalidOption, st0) :=
  ⟨C4_raw_path_by_opcode.1 q8Demo "64" st0 (by decide),
   C4_raw_path_by_opcode.2 qOneOfEmptyDemo "64" st0 vsDemo rfl rfl rfl⟩

/-- C4 counterexample: the claim says a `OneOf` question with an empty
option list and a present varstore takes the raw write path instead of
failing `InvalidOption`; on this concrete descriptor `change_value`
returns `InvalidOption`. -/
theorem C4_counterexample :
    change_value qOneOfEmptyDemo "64" st0 = (.error .InvalidOption, st0) ∧
    (change_value qOneOfEmptyDemo "64" st0).1 ≠ .ok true := by
  constructor
  · rfl
  · decide

/-- C3 (amended): for a non-OneOf (Numeric/CheckBox) question with a
varstore, `change_value` parses the new value at the width dictated by
the question's range and fails `ExceededMaxValue` whenever the parsed
value exceeds `max_value`; on the Numeric question with `max = 255`,
8-bit range and `var_store_info = 2`, the string `"64"` writes byte
`0x40` at varstore file offset `4 + 2 = 6`, while `"300"` does not parse
as a `u8` and fails with the wrapped parse error ("value should fit in a
u8"), not `ExceededMaxValue`. -/
theorem C3_numeric_write_and_bounds :
    (∀ (q : QuestionDescriptor) (v : String) (st : SysState) (vs : VarStoreView) (n : Nat),
      q.varstore = some vs → q.opcode ≠ opOneOf →
      parseAtWidth q.max_value v = some n → n > rangeTypeMaxNat q.max_value →
      change_value q v st = (.error .ExceededMaxValue, st)) ∧
    (change_value q8Demo "64" st0).1 = .ok true ∧
    (change_value q8Demo "64" st0).2.file = some [0, 0, 0, 0, 0, 0, 64, 0] ∧
    (change_value q8Demo "300" st0).1 = .error (.Other "value should fit in a u8") := by
  refine ⟨?_, rfl, rfl, rfl⟩
  intro q v st vs n h1 h2 hp hgt
  unfold change_value
  rw [h1]
  simp only [h2, if_false]
  rcases hq : q.max_value with m | m | m | m <;>
    rw [hq] at hp hgt <;>
    simp [parseAtWidth, rangeTypeWidthMax, rangeTypeMaxNat] at hp hgt <;>
    simp [hp, hgt]

/-- C3 witness: a Numeric question with `max = 100` given `"200"`
(which parses as a `u8`) fails `ExceededMaxValue`. -/
theorem C3_numeric_write_and_bounds_witness :
    change_value q8Max100 "200" st0 = (.error .ExceededMaxValue, st0) :=
  C3_numeric_write_and_bounds.1 q8Max100 "200" st0 vsDemo 200 rfl (by decide) rfl
    (by decide)

/-- C3 counterexample: on the Numeric question with `max = 255` and an
8-bit range, `change_value` with `"300"` fails with the `u8` parse
error, not with `ExceededMaxValue` as the claim states. -/
theorem C3_counterexample :
    (change_value q8Demo "300" st0).1 = .error (.Other "value should fit in a u8") ∧
    (change_value q8Demo "300" st0).1 ≠ .error .ExceededMaxValue := by
  constructor
  · rfl
  · decide

/-- C10: for every OneOf question node whose backing varstore cannot be
resolved or whose varstore bytes cannot be read, the question descriptor
produced by `handle_oneof` (shared by `list_questions` and
`find_question`) has current value `"Unknown"` and an empty
`possible_options` list, even when the node has OneOfOption children. -/
theorem C10_oneof_unknown_without_varstore
    (fs : String → Option (List Nat)) (varstore : Except String VarStoreView)
    (parsed : OneOfData) (children : List IFRNode) (sps : List StringMap)
    (question : String) (opc : Nat)
    (h : (∃ e, varstore = .error e) ∨ ∃ vs, varstore = .ok vs ∧ read_bytes fs vs = none) :
    (handle_oneof fs varstore parsed children sps question opc).value = "Unknown" ∧
    (handle_oneof fs varstore parsed children sps question opc).possible_options = [] := by
  unfold handle_oneof
  rcases h with ⟨e, rfl⟩ | ⟨vs, rfl, hr⟩
  · simp
  · simp [hr]

/-- C10 witness: a resolved varstore whose efivarfs file is absent, on a
OneOf node that does have a OneOfOption child. -/
theorem C10_oneof_unknown_without_varstore_witness :
    (handle_oneof fsEmpty (.ok vsDemo) oneOfDemo [optChildDemo] [] " Q " opOneOf).value
      = "Unknown" ∧
    (handle_oneof fsEmpty (.ok vsDemo) oneOfDemo [optChildDemo] [] " Q "
      opOneOf).possible_options = [] :=
  C10_oneof_unknown_without_varstore fsEmpty (.ok vsDemo) oneOfDemo [optChildDemo] []
    " Q " opOneOf (Or.inr ⟨vsDemo, rfl, rfl⟩)

/-- C8: every packet exchange of the Blobstore2 transport accepts a
response only when the response's sequence number (little-endian u16 at
offset 2) equals the one extracted from `send_buf[2..4]` and its error
code (little-endian u32 at offset 8) is 0 (Success) or 20 (NotModified);
a sequence mismatch yields the sequence-mismatch error and any other
error code yields the transport error carrying that code. -/
theorem C8_sequence_and_error_checks :
    (∀ (send : List Nat) (rep : Except Nat (List Nat)) (recv : List Nat),
      exchange_packet send rep = .ok recv →
      ∃ (seq : Nat) (resp : PacketExchangeResponse),
        readLe16 send 2 = some seq ∧
        parsePacketExchangeResponse recv = some resp ∧
        resp.sequence_number = seq ∧
        (resp.error_code = successCode ∨ resp.error_code = notModifiedCode)) ∧
    (∀ (send recv : List Nat) (seq : Nat) (resp : PacketExchangeResponse),
      readLe16 send 2 = some seq →
      parsePacketExchangeResponse recv = some resp →
      resp.sequence_number ≠ seq →
      exchange_packet send (.ok recv) = .error (.seqMismatch seq resp.sequence_number)) ∧
    (∀ (send recv : List Nat) (seq : Nat) (resp : PacketExchangeResponse),
      readLe16 send 2 = some seq →
      parsePacketExchangeResponse recv = some resp →
      resp.sequence_number = seq →
      resp.error_code ≠ successCode → resp.error_code ≠ notModifiedCode →
      exchange_packet send (.ok recv) = .error (.transportError resp.error_code)) := by
  refine ⟨?_, ?_, ?_⟩
  · intro send rep recv h
    unfold exchange_packet at h
    rcases hs : readLe16 send 2 with _ | seq <;> rw [hs] at h <;> simp only [] at h
    · simp at h
    · rcases rep with code | buf
      · simp at h
      · simp only [] at h
        rcases hp : parsePacketExchangeResponse buf with _ | resp <;> rw [hp] at h <;>
          simp only [] at h
        · simp at h
        · split_ifs at h with h1 h2
          obtain rfl : buf = recv := by injection h
          push_neg at h1
          exact ⟨seq, resp, rfl, hp, h1, h2⟩
  · intro send recv seq resp hs hp hne
    unfold exchange_packet
    rw [hs]
    simp only []
    rw [hp]
    simp only []
    simp [hne]
  · intro send recv seq resp hs hp hseq he1 he2
    unfold exchange_packet
    rw [hs]
    simp only []
    rw [hp]
    simp only []
    simp [hseq, he1, he2]

/-- Helper for C5: from any starting `current_try` at most 11, the loop
makes at most `12 - current_try` further calls, so the final count stays
at most 12. -/
theorem execLoopFrom_bound (attempt : Nat → Except String (List Nat)) :
    ∀ n ct, MAX_ALLOWED_REQUEST_ATTEMPTS + 2 - ct = n → ct ≤ MAX_ALLOWED_REQUEST_ATTEMPTS + 1 →
      (execLoopFrom attempt ct).2 ≤ MAX_ALLOWED_REQUEST_ATTEMPTS + 2 := by
  intro n
  induction n with
  | zero =>
    intro ct h0 h1
    simp [MAX_ALLOWED_REQUEST_ATTEMPTS] at h0 h1
    omega
  | succ n ih =>
    intro ct h0 h1
    rw [execLoopFrom]
    split
    · simp [MAX_ALLOWED_REQUEST_ATTEMPTS] at h1 ⊢
      omega
    · rename_i hcond
      simp only [not_or, MAX_ALLOWED_REQUEST_ATTEMPTS, not_lt] at hcond
      exact ih (ct + 1) (by simp [MAX_ALLOWED_REQUEST_ATTEMPTS] at h0 ⊢; omega)
        (by simp [MAX_ALLOWED_REQUEST_ATTEMPTS]; omega)

/-- Helper for C5: when every attempt fails, the loop runs `current_try`
all the way past `MAX_ALLOWED_REQUEST_ATTEMPTS`, making exactly 12 calls
from a start of 0. -/
theorem execLoopFrom_fail_count (attempt : Nat → Except String (List Nat))
    (hfail : ∀ n, (attempt n).isOk = false) :
    ∀ n ct, MAX_ALLOWED_REQUEST_ATTEMPTS + 2 - ct = n → ct ≤ MAX_ALLOWED_REQUEST_ATTEMPTS + 1 →
      (execLoopFrom attempt ct).2 = MAX_ALLOWED_REQUEST_ATTEMPTS + 2 := by
  intro n
  induction n with
  | zero =>
    intro ct h0 h1
    simp [MAX_ALLOWED_REQUEST_ATTEMPTS] at h0 h1
    omega
  | succ n ih =>
    intro ct h0 h1
    rw [execLoopFrom]
    split
    · rename_i hcond
      rcases hcond with hok | hgt
      · rw [hfail ct] at hok
        cases hok
      · simp [MAX_ALLOWED_REQUEST_ATTEMPTS] at hgt h1 ⊢
        omega
    · rename_i hcond
      simp only [not_or, MAX_ALLOWED_REQUEST_ATTEMPTS, not_lt] at hcond
      exact ih (ct + 1) (by simp [MAX_ALLOWED_REQUEST_ATTEMPTS] at h0 ⊢; omega)
        (by simp [MAX_ALLOWED_REQUEST_ATTEMPTS]; omega)

/-- C5 (amended): the REST layer's retry loop around
`Transport::make_request` makes at most 12 attempts in total — it breaks
only once `current_try` exceeds `MAX_ALLOWED_REQUEST_ATTEMPTS = 10`
after a failed attempt, so a request that always fails is attempted
exactly 12 times (11 retries), not 11; the transport itself performs no
internal retries (its embedding consults the library reply once per
exchange). -/
theorem C5_retry_count (attempt : Nat → Except String (List Nat)) :
    (execLoop attempt).2 ≤ 12 ∧
    ((∀ n, (attempt n).isOk = false) → (execLoop attempt).2 = 12) ∧
    MAX_ALLOWED_REQUEST_ATTEMPTS = 10 := by
  refine ⟨?_, ?_, rfl⟩
  · exact execLoopFrom_bound attempt (MAX_ALLOWED_REQUEST_ATTEMPTS + 2) 0 rfl (Nat.zero_le _)
  · intro hfail
    exact execLoopFrom_fail_count attempt hfail (MAX_ALLOWED_REQUEST_ATTEMPTS + 2) 0 rfl
      (Nat.zero_le _)

/-- C5 witness: the always-failing attempt is attempted exactly 12
times. -/
theorem C5_retry_count_witness :
    (execLoop failingAttempt).2 ≤ 12 ∧ (execLoop failingAttempt).2 = 12 :=
  ⟨(C5_retry_count failingAttempt).1,
   (C5_retry_count failingAttempt).2.1 (fun _ => rfl)⟩

/-- C5 counterexample: a request that always fails is attempted 12
times, not at most 11 as the claim states. -/
theorem C5_counterexample :
    (execLoop failingAttempt).2 = 12 ∧ ¬((execLoop failingAttempt).2 ≤ 11) := by
  have h := execLoopFrom_fail_count failingAttempt (fun _ => rfl)
    (MAX_ALLOWED_REQUEST_ATTEMPTS + 2) 0 rfl (Nat.zero_le _)
  simp only [MAX_ALLOWED_REQUEST_ATTEMPTS] at h
  rw [execLoop]
  exact ⟨h, by omega⟩

/-- Helper for C9: reading a null-terminated UTF-16LE string off the
wire recovers exactly the nonzero code units placed before the `0x0000`
terminator. -/
theorem pNullWideUnits_encode (us rest : List Nat)
    (h : ∀ u ∈ us, 0 < u ∧ u < 65536) :
    pNullWideUnits.go (encodeUtf16Bytes us ++ [0, 0] ++ rest) = some (us, rest) := by
  induction us with
  | nil => simp [encodeUtf16Bytes, pNullWideUnits.go]
  | cons u us ih =>
    obtain ⟨hpos, hlt⟩ := h u (by simp)
    have hrec := ih (fun v hv => h v (by simp [hv]))
    have hval : u % 256 + 256 * (u / 256 % 256) = u := by omega
    simp only [encodeUtf16Bytes, List.flatMap_cons, encodeLe16, List.cons_append,
      List.append_assoc, List.nil_append] at hrec ⊢
    simp only [pNullWideUnits.go, hval]
    rw [if_neg (by omega)]
    rw [hrec]
    rfl

/-- C9: `handle_string_package` runs the string-block loop with a
running string id starting at 1; a `StringUcs2` (`0x14`) block binds the
decoded UTF-16 string to the current id and increments the id by 1; a
`Skip1` (`0x22`) block adds its `u8` operand to the id; a `Skip2`
(`0x21`) block adds its little-endian `u16` operand to the id (so a
`Skip2` with operand 0 changes no ids and adds no strings); an `End`
(`0x00`) block terminates the package with the map built so far; and any
other block tag aborts parsing of the package with an error. -/
theorem C9_string_blocks :
    (∀ (data lang rest : List Nat),
      parseStringPackageHeader data = some (lang, rest) →
      handle_string_package data = stringBlocks (rest.length + 1) 1 [] rest) ∧
    (∀ (fuel : Nat) (id : Int) (m : StringMap) (rest us : List Nat),
      (∀ u ∈ us, 0 < u ∧ u < 65536) →
      stringBlocks (fuel + 1) id m
          (blockStringUcs2 :: (encodeUtf16Bytes us ++ [0, 0] ++ rest)) =
        stringBlocks fuel (id + 1) (smInsert m id (utf16ToString us)) rest) ∧
    (∀ (fuel : Nat) (id : Int) (m : StringMap) (rest : List Nat) (n : Nat),
      stringBlocks (fuel + 1) id m (blockSkip1 :: n :: rest) =
        stringBlocks fuel (id + (n : Nat)) m rest) ∧
    (∀ (fuel : Nat) (id : Int) (m : StringMap) (rest : List Nat) (lo hi : Nat),
      stringBlocks (fuel + 1) id m (blockSkip2 :: lo :: hi :: rest) =
        stringBlocks fuel (id + (lo + 256 * hi : Nat)) m rest) ∧
    (∀ (fuel : Nat) (id : Int) (m : StringMap) (rest : List Nat),
      stringBlocks (fuel + 1) id m (blockSkip2 :: 0 :: 0 :: rest) =
        stringBlocks fuel id m rest) ∧
    (∀ (fuel : Nat) (id : Int) (m : StringMap) (rest : List Nat),
      stringBlocks (fuel + 1) id m (blockEnd :: rest) = .ok m) ∧
    (∀ (fuel : Nat) (id : Int) (m : StringMap) (rest : List Nat) (t : Nat),
      t ≠ blockStringUcs2 → t ≠ blockSkip1 → t ≠ blockSkip2 → t ≠ blockEnd →
      stringBlocks (fuel + 1) id m (t :: rest) = .error "Unhandled block type") := by
  refine ⟨?_, ?_, ?_, ?_, ?_, ?_, ?_⟩
  · intro data lang rest h
    simp [handle_string_package, h]
  · intro fuel id m rest us h
    have hgo := pNullWideUnits_encode us rest h
    simp only [List.append_assoc, List.cons_append, List.nil_append] at hgo
    simp [stringBlocks, blockStringUcs2, pNullWideUnits, hgo]
  · intro fuel id m rest n
    simp [stringBlocks, blockSkip1, blockStringUcs2, blockSkip2]
  · intro fuel id m rest lo hi
    simp [stringBlocks, blockSkip2, blockStringUcs2]
  · intro fuel id m rest
    simp [stringBlocks, blockSkip2, blockStringUcs2]
  · intro fuel id m rest
    simp [stringBlocks, blockEnd, blockStringUcs2, blockSkip2, blockSkip1]
  · intro fuel id m rest t h1 h2 h3 h4
    simp [stringBlocks, h1, h2, h3, h4]

/-- C9 witness: the block loop on concrete blocks — a header followed by
an `End` block starts at id 1; a one-character `StringUcs2` block binds
id 1 and moves to id 2; an unhandled tag (`0x40` Font) errors. -/
theorem C9_string_blocks_witness :
    handle_string_package (List.replicate 42 0 ++ [101, 0] ++ [blockEnd]) =
      stringBlocks 2 1 [] [blockEnd] ∧
    stringBlocks 3 1 [] (blockStringUcs2 :: (encodeUtf16Bytes [77] ++ [0, 0] ++ [blockEnd])) =
      stringBlocks 2 2 (smInsert [] 1 (utf16ToString [77])) [blockEnd] ∧
    stringBlocks 1 1 [] [0x40] = .error "Unhandled block type" :=
  ⟨C9_string_blocks.1 (List.replicate 42 0 ++ [101, 0] ++ [blockEnd]) [101] [blockEnd] rfl,
   C9_string_blocks.2.1 2 1 [] [blockEnd] [77] (by decide),
   C9_string_blocks.2.2.2.2.2.2 0 1 [] [] 0x40 (by decide) (by decide) (by decide)
     (by decide)⟩

/-- C8 witness: concrete 12-byte replies — matching sequence with error
code 0 is accepted; sequence 8 against send sequence 7 yields the
mismatch error; matching sequence with error code 5 yields the transport
error. -/
theorem C8_sequence_and_error_checks_witness :
    (∃ (seq : Nat) (resp : PacketExchangeResponse),
      readLe16 sendSeq7 2 = some seq ∧
      parsePacketExchangeResponse recvSeq7Ok = some resp ∧
      resp.sequence_number = seq ∧
      (resp.error_code = successCode ∨ resp.error_code = notModifiedCode)) ∧
    exchange_packet sendSeq7 (.ok recvSeq8) = .error (.seqMismatch 7 8) ∧
    exchange_packet sendSeq7 (.ok recvSeq7Err5) = .error (.transportError 5) :=
  ⟨C8_sequence_and_error_checks.1 sendSeq7 (.ok recvSeq7Ok) recvSeq7Ok rfl,
   C8_sequence_and_error_checks.2.1 sendSeq7 recvSeq8 7 ⟨8, 0⟩ rfl rfl (by decide),
   C8_sequence_and_error_checks.2.2 sendSeq7 recvSeq7Err5 7 ⟨7, 5⟩ rfl rfl rfl
     (by decide) (by decide)⟩

/-- C1 (amended): on the immediate path (request shorter than
`max_write + immediate_request_size`), when the exchanged reply parses
with `receive_mode = 0` and is long enough, `make_request` returns the
`rest_response_fixed_size + data_len` bytes that begin at offset
`rest_response_fixed_size` of the response buffer — `data_len` payload
bytes plus `rest_response_fixed_size` trailing bytes, not `data_len`
bytes. -/
theorem C1_immediate_overread (mw irs fs : Nat) (tmpl : Nat → List Nat)
    (lib : List Nat → Except Nat (List Nat)) (mp : Unit → Except String (List Nat))
    (frag : Unit → Option (List Nat)) (request resp : List Nat) (r : IloFixedResponse)
    (hlen : request.length < mw + irs)
    (hex : exchange_packet (tmpl request.length ++ request)
      (lib (tmpl request.length ++ request)) = .ok resp)
    (hp : parseIloFixedResponse resp = some r)
    (hmode : r.receive_mode = 0)
    (hsize : fs + (fs + r.data_len) ≤ resp.length) :
    make_request mw irs fs tmpl lib mp frag request
      = .ok ((resp.drop fs).take (fs + r.data_len)) ∧
    ((resp.drop fs).take (fs + r.data_len)).length = fs + r.data_len := by
  constructor
  · unfold make_request
    simp only [if_pos hlen, hex]
    unfold make_request_receive
    rw [hp]
    simp only [hmode]
    unfold readSlice
    rw [if_pos hsize]
    simp
  · rw [List.length_take, List.length_drop]
    omega

set_option maxRecDepth 4000 in
/-- C1 witness: the concrete immediate exchange with
`rest_response_fixed_size = 32` and `data_len = 120` returns the 152
bytes at offsets 32..183 of the 184-byte reply. -/
theorem C1_immediate_overread_witness :
    make_request 4064 32 32 (fun _ => []) (fun _ => .ok c1resp)
        (fun _ => .error "unused") (fun _ => none) c1request
      = .ok ((c1resp.drop 32).take 152) ∧
    ((c1resp.drop 32).take 152).length = 152 :=
  C1_immediate_overread 4064 32 32 (fun _ => []) (fun _ => .ok c1resp)
    (fun _ => .error "unused") (fun _ => none) c1request c1resp ⟨0, 0, 0, 120⟩
    (by decide) rfl rfl rfl (by decide)

set_option maxRecDepth 4000 in
/-- C1 counterexample: the claim says the reply with `receive_mode = 0`,
`data_len = 120`, `rest_response_fixed_size = 32` yields exactly 120
bytes; the returned vector has 152 bytes. -/
theorem C1_counterexample :
    (make_request 4064 32 32 (fun _ => []) (fun _ => .ok c1resp)
        (fun _ => .error "unused") (fun _ => none) c1request).map List.length
      = .ok 152 ∧
    (make_request 4064 32 32 (fun _ => []) (fun _ => .ok c1resp)
        (fun _ => .error "unused") (fun _ => none) c1request).map List.length
      ≠ .ok 120 := by
  constructor
  · rfl
  · decide

/-- Helper for C2: inserting preserves every existing key. -/
theorem alKeys_insert_of_mem {α : Type} (l : List (String × α)) (k : String) (v : α)
    (g : String) (hg : g ∈ alKeys l) : g ∈ alKeys (alInsert l k v) := by
  unfold alKeys at hg
  obtain ⟨p, hp, rfl⟩ := List.mem_map.mp hg
  unfold alInsert alKeys
  by_cases h : l.any (fun p => p.1 = k)
  · rw [if_pos h, List.map_map]
    by_cases hpk : p.1 = k
    · exact List.mem_map.mpr ⟨p, hp, by simp [Function.comp, hpk]⟩
    · exact List.mem_map.mpr ⟨p, hp, by simp [Function.comp, hpk]⟩
  · rw [if_neg h, List.map_append]
    exact List.mem_append_left _ (List.mem_map.mpr ⟨p, hp, rfl⟩)

/-- Helper for C2: the inserted key is a key afterwards. -/
theorem alKeys_insert_self {α : Type} (l : List (String × α)) (k : String) (v : α) :
    k ∈ alKeys (alInsert l k v) := by
  unfold alInsert alKeys
  by_cases h : l.any (fun p => p.1 = k)
  · rw [if_pos h, List.map_map]
    rw [List.any_eq_true] at h
    obtain ⟨w, hw, hwk⟩ := h
    simp only [decide_eq_true_eq] at hwk
    exact List.mem_map.mpr ⟨w, hw, by simp [Function.comp, hwk]⟩
  · rw [if_neg h, List.map_append]
    exact List.mem_append_right _ (by simp)

/-- Helper for C2: a key after insertion was a key before or is the
inserted one. -/
theorem alKeys_of_insert {α : Type} (l : List (String × α)) (k : String) (v : α)
    (g : String) (hg : g ∈ alKeys (alInsert l k v)) : g ∈ alKeys l ∨ g = k := by
  unfold alInsert alKeys at hg
  unfold alKeys
  by_cases h : l.any (fun p => p.1 = k)
  · rw [if_pos h, List.map_map] at hg
    obtain ⟨p, hp, heq⟩ := List.mem_map.mp hg
    by_cases hpk : p.1 = k
    · right
      simp [Function.comp, hpk] at heq
      exact heq.symm
    · left
      simp [Function.comp, hpk] at heq
      exact List.mem_map.mpr ⟨p, hp, heq⟩
  · rw [if_neg h, List.map_append] at hg
    rcases List.mem_append.mp hg with hl | hr
    · exact Or.inl hl
    · right
      simpa using hr

/-- Helper for C2: on success, `processPackages` produces a nonempty
root list iff a `Form` package is present, and a nonempty string-map
list iff a `Strings` package is present. -/
theorem processPackages_nonempty (pkgs : List Package) :
    ∀ pr, processPackages pkgs = .ok pr →
      ((pr.2 ≠ []) ↔ pkgs.any (fun p => p.package_type = packageTypeForm) = true) ∧
      ((pr.1 ≠ []) ↔ pkgs.any (fun p => p.package_type = packageTypeStrings) = true) := by
  induction pkgs with
  | nil =>
    intro pr h
    unfold processPackages at h
    injection h with h2
    subst h2
    simp
  | cons p rest ih =>
    intro pr h
    unfold processPackages at h
    by_cases h4 : p.package_type = packageTypeStrings
    · rw [if_pos h4] at h
      rcases hsp : handle_string_package p.data with e | sm <;> rw [hsp] at h <;>
        simp only [] at h
      · cases h
      · rcases hrest : processPackages rest with e | pr2 <;> rw [hrest] at h <;>
          simp only [] at h
        · cases h
        · obtain ⟨sms2, roots2⟩ := pr2
          simp only [] at h
          injection h with h2
          subst h2
          obtain ⟨ih1, ih2⟩ := ih (sms2, roots2) hrest
          have hne : p.package_type ≠ packageTypeForm := by
            rw [h4]
            decide
          refine ⟨?_, ?_⟩
          · simpa [hne] using ih1
          · simp [h4]
    · rw [if_neg h4] at h
      by_cases h2f : p.package_type = packageTypeForm
      · rw [if_pos h2f] at h
        rcases hfp : handle_form_package p.data with e | root <;> rw [hfp] at h <;>
          simp only [] at h
        · cases h
        · rcases hrest : processPackages rest with e | pr2 <;> rw [hrest] at h <;>
            simp only [] at h
          · cases h
          · obtain ⟨sms2, roots2⟩ := pr2
            simp only [] at h
            injection h with h2
            subst h2
            obtain ⟨ih1, ih2⟩ := ih (sms2, roots2) hrest
            refine ⟨?_, ?_⟩
            · simp [h2f]
            · simpa [h4] using ih2
      · rw [if_neg h2f] at h
        obtain ⟨ih1, ih2⟩ := ih pr h
        refine ⟨?_, ?_⟩
        · simpa [h2f] using ih1
        · simpa [h4] using ih2

/-- Helper for C2: the package-list walk of `read_db` preserves the
forms-keys-have-strings invariant whenever every walked package list
pairs its `Form` packages with a `Strings` package. -/
theorem readDbLists_preserves (pls : List PackageList) :
    ∀ (acc db : ParsedHiiDB),
      (∀ pl ∈ pls, formsImplyStrings pl = true) →
      readDbLists pls acc = .ok db →
      (∀ g, g ∈ alKeys acc.forms → g ∈ alKeys acc.strings) →
      (∀ g, g ∈ alKeys db.forms → g ∈ alKeys db.strings) := by
  induction pls with
  | nil =>
    intro acc db _ h hinv
    unfold readDbLists at h
    injection h with h2
    subst h2
    exact hinv
  | cons pl rest ih =>
    intro acc db hH h hinv
    unfold readDbLists at h
    rcases hgp : get_packages pl with e | pkgs <;> rw [hgp] at h <;> simp only [] at h
    · cases h
    · rcases hpp : processPackages pkgs with e | pr <;> rw [hpp] at h <;>
        simp only [] at h
      · cases h
      · obtain ⟨sms, roots⟩ := pr
        simp only [] at h
        refine ih _ db (fun q hq => hH q (by simp [hq])) h ?_
        intro g hg
        obtain ⟨hroots, hsms⟩ := processPackages_nonempty pkgs (sms, roots) hpp
        simp only [] at hroots hsms
        by_cases hre : roots.isEmpty = true <;> by_cases hse : sms.isEmpty = true <;>
          simp only [hre, hse, if_true, if_false, ite_true, ite_false,
            Bool.false_eq_true] at hg ⊢
        · exact hinv g hg
        · exact alKeys_insert_of_mem _ _ _ g (hinv g hg)
        · exact absurd (List.isEmpty_iff.mp hse)
            (by
              have hform : roots ≠ [] := by
                simpa [List.isEmpty_iff] using hre
              have hfis := hH pl (by simp)
              unfold formsImplyStrings at hfis
              rw [hgp] at hfis
              simp only [Bool.or_eq_true, Bool.not_eq_true'] at hfis
              rcases hfis with hno | hyes
              · rw [hroots.mp hform] at hno
                cases hno
              · exact hsms.mpr hyes)
        · rcases alKeys_of_insert _ _ _ g hg with hin | rfl
          · exact alKeys_insert_of_mem _ _ _ g (hinv g hin)
          · exact alKeys_insert_self _ _ _

/-- C2 (amended): for every byte buffer on which `read_db` succeeds,
every GUID that is a key of the forms map is also a key of the strings
map **provided** every parsed package list that contains a `Form`
package also contains a `Strings` package; without that proviso a
package list with form packages but no string packages yields a forms
key with no matching strings entry. -/
theorem C2_forms_keys_have_strings (source : List Nat) (pls : List PackageList)
    (db : ParsedHiiDB)
    (h1 : get_package_lists source = .ok pls)
    (h2 : ∀ pl ∈ pls, formsImplyStrings pl = true)
    (h3 : read_db source = .ok db) :
    formsKeysHaveStrings db = true := by
  unfold read_db at h3
  rw [h1] at h3
  simp only [] at h3
  have hsub := readDbLists_preserves pls ⟨[], []⟩ db h2 h3 (by simp [alKeys])
  unfold formsKeysHaveStrings
  rw [List.all_eq_true]
  intro p hp
  rw [List.any_eq_true]
  have hg := hsub p.1 (List.mem_map_of_mem Prod.fst hp)
  obtain ⟨q, hq, hqe⟩ := List.mem_map.mp hg
  exact ⟨q, hq, by simp [hqe]⟩

/-- C2 witness: a buffer whose single package list holds one strings
package and one forms package satisfies the invariant. -/
theorem C2_forms_keys_have_strings_witness :
    formsKeysHaveStrings c2PairedDb = true :=
  C2_forms_keys_have_strings c2bufPaired c2PairedLists c2PairedDb rfl (by decide) rfl

/-- C2 counterexample: a buffer whose single package list holds a forms
package but no strings package parses successfully into a database whose
forms map has the package list's GUID as key while its strings map is
empty — the claimed invariant fails. -/
theorem C2_counterexample :
    (read_db c2buf).map formsKeysHaveStrings = .ok false ∧
    (read_db c2buf).map (fun db => db.forms.map Prod.fst) = .ok [zeroGuidString] ∧
    (read_db c2buf).map (fun db => db.strings.map Prod.fst) = .ok [] := by
  refine ⟨rfl, rfl, rfl⟩

end Theorems
